import Mathlib

/-!
Verification of the MCP weather gateway (server.py, tools/weather.py).

Strings are modelled as `List Char`.  The session store (the Python dict
`active_sessions`) is an association list from session id to record, with
the dict key-uniqueness available as a `Nodup` hypothesis where needed.
Time (`time.time()`) is modelled in whole seconds as `Nat`.
-/

namespace MCPWeather

/-- Strings of the Python program, modelled as lists of characters. -/
abbrev Str := List Char

/-- Python `str.lower()` (the queries involved are ASCII). -/
def lowerStr (s : Str) : Str := s.map Char.toLower

/-- Python whitespace for `str.strip()`: space, tab, newline, CR, VT, FF. -/
def isPySpace (c : Char) : Bool :=
  c == ' ' || c == '\t' || c == '\n' || c == '\r' || c == '\x0b' || c == '\x0c'

/-- Python `str.strip()`: drop whitespace from both ends. -/
def pyStrip (s : Str) : Str :=
  ((s.dropWhile isPySpace).reverse.dropWhile isPySpace).reverse

/-- Whether `sub` occurs at the start of `s`. -/
def isPrefixB : Str → Str → Bool
  | [], _ => true
  | _ :: _, [] => false
  | a :: as, b :: bs => (a == b) && isPrefixB as bs

/-- Whether `sub` occurs as a contiguous substring of `s`; Python `sub in s`. -/
def containsStr (sub s : Str) : Bool :=
  isPrefixB sub s ||
    match s with
    | [] => false
    | _ :: t => containsStr sub t

/-- Case-insensitive prefix test, the literal part of an `re.IGNORECASE` match. -/
def ciPrefix : Str → Str → Bool
  | [], _ => true
  | _ :: _, [] => false
  | a :: as, b :: bs => (a.toLower == b.toLower) && ciPrefix as bs

/-- One character of the regex class interior in `([^?.,]+)`. -/
def notStopChar (c : Char) : Bool :=
  !(c == '?' || c == '.' || c == ',')

/-- Try the pattern `lit([^?.,]+)` (case-insensitive literal) at the current
position: the literal must match and the greedy capture must be nonempty. -/
def matchesAt (lit s : Str) : Option Str :=
  if ciPrefix lit s then
    let cap := (s.drop lit.length).takeWhile notStopChar
    if cap.isEmpty then none else some cap
  else none

/-- Python re.search with the IGNORECASE flag, for a pattern made of the
literal `lit` followed by the capture group of `matchesAt`: the leftmost
position where the whole pattern matches, returning the greedy capture. -/
def searchCI (lit : Str) : Str → Option Str
  | [] => matchesAt lit []
  | s@(_ :: t) =>
    match matchesAt lit s with
    | some c => some c
    | none => searchCI lit t

/-- The three patterns of server.py lines 65/67/69 (and 148/150/152), tried
in order; the raw capture of the first that matches. -/
def cityCapture (q : Str) : Option Str :=
  match searchCI "weather like in ".toList q with
  | some c => some c
  | none =>
    match searchCI "forecast for ".toList q with
    | some c => some c
    | none => searchCI "weather forecast for ".toList q

/-- server.py line 70: `city_match.group(1).strip() if city_match else "London"`. -/
def extract_city (q : Str) : Str :=
  match cityCapture q with
  | some c => pyStrip c
  | none => "London".toList

/-- server.py line 76/159: `"forecast" in query.lower() or "tomorrow" in
query.lower() or "next" in query.lower()`. -/
def wantsForecast (q : Str) : Bool :=
  containsStr "forecast".toList (lowerStr q) ||
  containsStr "tomorrow".toList (lowerStr q) ||
  containsStr "next".toList (lowerStr q)

/-- Query intent, as in spec section 4.1. -/
inductive Intent where
  | CURRENT
  | FORECAST
deriving DecidableEq

/-- The QueryInterpreter of the spec: the pair of the intent test and the
city extraction that server.py performs inline. -/
def interpret_query (q : Str) : Intent × Str :=
  (if wantsForecast q then .FORECAST else .CURRENT, extract_city q)

/-! ## Request bodies -/

/-- One element of the `messages` array; `content` is absent when the dict
has no `"content"` key (Python `.get("content", default)`). -/
structure Message where
  content : Option Str
deriving DecidableEq

/-- A parsed JSON request body.  `stream` is absent when the `"stream"` key
is missing (`body.get("stream", True)`); `messages` is absent when the
`"messages"` key is missing (`body.get("messages", [{}])`). -/
structure Body where
  stream : Option Bool
  messages : Option (List Message)
deriving DecidableEq

/-- server.py lines 60 and 114: `body.get("messages", [{}])[0].get("content", "")`.
Returns `none` exactly when indexing `[0]` raises `IndexError`, i.e. when the
`messages` key is present and bound to the empty list; the raised error is
caught by the catch-all `except` of the handler and becomes an HTTP 500. -/
def pyGetQuery (b : Body) : Option Str :=
  match b.messages with
  | none => some []
  | some [] => none
  | some (m :: _) => some (m.content.getD [])

/-! ## Session store -/

/-- One value of the `active_sessions` dict, server.py lines 113-118. -/
structure SessionData where
  query : Str
  stream : Bool
  body : Body
  timestamp : Nat
deriving DecidableEq

instance : Inhabited Body := ⟨⟨none, none⟩⟩

instance : Inhabited SessionData := ⟨⟨[], true, ⟨none, none⟩, 0⟩⟩

/-- The `active_sessions` dict, as an association list (insertion order,
unique keys). -/
abbrev Store := List (Str × SessionData)

/-- Dict lookup `active_sessions.get(session_id)`. -/
def findSession (sid : Str) : Store → Option SessionData
  | [] => none
  | (k, d) :: t => if k = sid then some d else findSession sid t

/-- Dict assignment `active_sessions[sid] = d`: overwrite in place if the key
exists, else append. -/
def insertSession (sid : Str) (d : SessionData) (store : Store) : Store :=
  match store with
  | [] => [(sid, d)]
  | (k, d0) :: t =>
    if k = sid then (k, d) :: t else (k, d0) :: insertSession sid d t

/-- server.py line 40: `SESSION_EXPIRATION = 300`. -/
def SESSION_EXPIRATION : Nat := 300

/-- server.py line 134: `current_time - data.get("timestamp", 0) > SESSION_EXPIRATION`
(natural subtraction agrees with the Python float test: a record from the
future is not expired either way). -/
def isExpired (now : Nat) (d : SessionData) : Bool :=
  decide (SESSION_EXPIRATION < now - d.timestamp)

/-- server.py lines 129-141, `cleanup_expired_sessions`: pop every expired
entry, return the surviving store together with the number removed. -/
def cleanup_expired_sessions (now : Nat) (store : Store) : Store × Nat :=
  (store.filter (fun p => !isExpired now p.2),
   (store.filter (fun p => isExpired now p.2)).length)

/-- The per-entry effect of `active_sessions[session_id]["timestamp"] = time.time()`
on an association-list store: refresh the timestamp of the matching key. -/
def touchEntry (sid : Str) (t : Nat) (p : Str × SessionData) : Str × SessionData :=
  if p.1 = sid then (p.1, { p.2 with timestamp := t }) else p

/-- server.py lines 176-177: `if session_id in active_sessions:
active_sessions[session_id]["timestamp"] = time.time()`. -/
def touchIfPresent (sid : Str) (t : Nat) (store : Store) : Store :=
  if (findSession sid store).isSome then store.map (touchEntry sid t)
  else store

/-! ## Weather tools (tools/weather.py)

The tool coroutines are the WeatherProvider collaborator of the spec.  The
gateway is parametrised by the two tool functions `cur` and `fore`
(`weather_mcp.tools[...].function`); a tool that raises is modelled by
`Except.error` carrying `str(e)`, one that returns normally by `Except.ok`.
-/

/-- The rendered field values of a current-conditions JSON payload, each
already formatted the way the Python f-string would print it. -/
structure WeatherData where
  name : Str
  country : Str
  temp : Str
  feelsLike : Str
  humidity : Str
  windSpeed : Str
  description : Str
deriving DecidableEq

/-- weather.py lines 74-79: the success formatting of `get_current_weather_impl`. -/
def formatCurrent (d : WeatherData) : Str :=
  "Current weather in ".toList ++ d.name ++ ", ".toList ++ d.country ++ ":\n".toList ++
  "Temperature: ".toList ++ d.temp ++ "°C\n".toList ++
  "Feels like: ".toList ++ d.feelsLike ++ "°C\n".toList ++
  "Humidity: ".toList ++ d.humidity ++ "%\n".toList ++
  "Wind speed: ".toList ++ d.windSpeed ++ " m/s\n".toList ++
  "Conditions: ".toList ++ d.description ++ "\n".toList

/-- Outcome of the underlying `get_weather_data` HTTP call: success,
`httpx.TimeoutException`, `httpx.HTTPStatusError` with a status code
(`raise_for_status`), or any other exception (e.g. the missing-API-key
`ValueError`). -/
inductive FetchOutcome where
  | ok (d : WeatherData)
  | timeout
  | httpStatus (code : Nat)
  | other
deriving DecidableEq

/-- weather.py lines 62-89, `get_current_weather_impl`: every failure of the
provider is caught inside the tool and converted to an error string, so the
tool itself always returns normally. -/
def get_current_weather_impl (city : Str) (o : FetchOutcome) : Str :=
  match o with
  | .ok d => formatCurrent d
  | .timeout =>
    "Error: Timeout while getting weather data for ".toList ++ city ++
      ". Please try again later.".toList
  | .httpStatus code =>
    if code = 404 then
      "Error: Could not find weather data for ".toList ++ city ++
        ". Please check the city name and try again.".toList
    else
      "Error: Could not retrieve weather data for ".toList ++ city ++
        ". The weather service might be unavailable.".toList
  | .other =>
    "Error: An unexpected error occurred while getting weather data for ".toList ++
      city ++ ".".toList

/-! ## The gateway (server.py) -/

/-- A weather tool as the gateway sees it: city in, answer text out, or a
raised exception (`Except.error` with `str(e)`). -/
abbrev Tool := Str → Except Str Str

/-- server.py lines 64-81 and 95-107 (identically lines 146-164 and 169-173):
extract the city, dispatch on intent to the forecast or current tool, and
convert a raised exception into the in-band error string of lines 102/171. -/
def answerQuery (cur fore : Tool) (query : Str) : Str :=
  let city := extract_city query
  match (if wantsForecast query then fore city else cur city) with
  | .ok res => res
  | .error e =>
    "Error: Could not get weather data for ".toList ++ city ++ ". ".toList ++ e

/-- The session id of server.py line 110: the printed UUID with every
hyphen removed by `.replace`. -/
def genSessionId (u : Str) : Str := u.filter (fun c => c ≠ '-')

/-- A lowercase hexadecimal digit. -/
def isHexChar (c : Char) : Bool := c.isDigit || ('a' ≤ c && c ≤ 'f')

/-- The canonical textual form of a UUID as `str(uuid.uuid4())` prints it:
five lowercase-hex groups of sizes 8-4-4-4-12 joined by hyphens. -/
def IsUuidString (u : Str) : Prop :=
  ∃ a b c d e : Str,
    u = a ++ '-' :: b ++ '-' :: c ++ '-' :: d ++ '-' :: e ∧
    a.length = 8 ∧ b.length = 4 ∧ c.length = 4 ∧ d.length = 4 ∧ e.length = 12 ∧
    ∀ x ∈ a ++ b ++ c ++ d ++ e, isHexChar x = true

/-- server.py line 123: the SSE endpoint-announcement frame. -/
def endpointFrame (sid : Str) : Str :=
  "event: endpoint\ndata: /v1/mcp/messages/?session_id=".toList ++ sid ++
    "\n\n".toList

/-- Result of `POST /v1/mcp`: the non-streaming JSON answer shape
`choices[0].message.role / .content, choices[0].finish_reason`; the SSE
handshake string; or the HTTP 500 of the catch-all `except`. -/
inductive InitialResult where
  | direct (role content finish : Str)
  | endpoint (frame : Str)
  | error500
deriving DecidableEq

/-- server.py lines 47-126, `handle_mcp_request`.  `u` is the UUID string
drawn for this request, `now` the current time; returns the response and the
updated session store. -/
def handle_mcp_request (cur fore : Tool) (u : Str) (now : Nat) (b : Body)
    (store : Store) : InitialResult × Store :=
  if (b.stream.getD true) = false then
    match pyGetQuery b with
    | none => (.error500, store)
    | some q =>
      (.direct "assistant".toList (answerQuery cur fore q) "stop".toList, store)
  else
    match pyGetQuery b with
    | none => (.error500, store)
    | some q =>
      let sid := genSessionId u
      (.endpoint (endpointFrame sid),
       insertSession sid ⟨q, b.stream.getD true, b, now⟩ store)

/-- One SSE `data:` frame of the streaming response, by its JSON payload:
`delta role content` is `data: {"choices": [{"delta": {"role": r, "content": c}}]}`
and `stop` is `data: {"choices": [{"finish_reason": "stop"}]}`. -/
inductive Frame where
  | delta (role content : Str)
  | stop
deriving DecidableEq

/-- server.py lines 143-184, `stream_weather_response`: the generator always
yields exactly the delta frame and the stop frame (provider errors are caught
at lines 169-173 and turned into the delta content), then refreshes the
session timestamp if the session still exists. -/
def stream_weather_response (cur fore : Tool) (session_id query : Str)
    (touchTime : Nat) (store : Store) : List Frame × Store :=
  ( [Frame.delta "assistant".toList (answerQuery cur fore query), Frame.stop],
    touchIfPresent session_id touchTime store)

/-- server.py lines 208-211: prefer `body["messages"][0].get("content", query)`
when the body has a nonempty `messages` list, else the stored query. -/
def effectiveQuery (b : Body) (sessionQuery : Str) : Str :=
  match b.messages with
  | some (m :: _) => m.content.getD sessionQuery
  | _ => sessionQuery

/-- Result of `POST /v1/mcp/messages/`: HTTP 400, HTTP 404, the streamed SSE
body, or the HTTP 500 of the catch-all `except` (unparseable body). -/
inductive StreamResult where
  | badRequest (detail : Str)
  | notFound (detail : Str)
  | streamed (frames : List Frame)
  | error500
deriving DecidableEq

/-- server.py lines 186-230, `handle_messages`.  `sid` is the `session_id`
query parameter (`none` when absent), `rawBody` the request body (`none` when
`request.json()` raises), `now` the time of the expiry sweep, `touchTime` the
time at which streaming completes. -/
def handle_messages (cur fore : Tool) (sid : Option Str) (rawBody : Option Body)
    (now touchTime : Nat) (store : Store) : StreamResult × Store :=
  match sid with
  | none => (.badRequest "session_id is required".toList, store)
  | some s =>
    if s = [] then (.badRequest "session_id is required".toList, store)
    else
      match findSession s (cleanup_expired_sessions now store).1 with
      | none => (.notFound "Session not found or expired".toList,
          (cleanup_expired_sessions now store).1)
      | some data =>
        match rawBody with
        | none => (.error500, (cleanup_expired_sessions now store).1)
        | some b =>
          ((.streamed (stream_weather_response cur fore s
              (effectiveQuery b data.query) touchTime
              (cleanup_expired_sessions now store).1).1),
           (stream_weather_response cur fore s
              (effectiveQuery b data.query) touchTime
              (cleanup_expired_sessions now store).1).2)

/-! ## String lemmas -/

theorem isPrefixB_iff (l₁ l₂ : Str) : isPrefixB l₁ l₂ = true ↔ l₁ <+: l₂ := by
  induction l₁ generalizing l₂ with
  | nil => simp [isPrefixB, List.nil_prefix]
  | cons a as ih =>
    cases l₂ with
    | nil => simp [isPrefixB, List.prefix_nil]
    | cons b bs => simp [isPrefixB, List.cons_prefix_cons, ih]

theorem containsStr_iff (sub s : Str) : containsStr sub s = true ↔ sub <:+: s := by
  induction s with
  | nil =>
    rw [containsStr]
    simp [isPrefixB_iff, List.infix_nil, List.prefix_nil]
  | cons a t ih =>
    rw [containsStr]
    simp [isPrefixB_iff, List.infix_cons_iff, ih]

theorem searchCI_eq_some_iff (lit s c : Str) :
    searchCI lit s = some c ↔
      ∃ i, matchesAt lit (s.drop i) = some c ∧
        ∀ j < i, matchesAt lit (s.drop j) = none := by
  induction s with
  | nil =>
    rw [searchCI]
    constructor
    · intro h
      exact ⟨0, by simpa using h, by omega⟩
    · rintro ⟨i, hi, -⟩
      simpa [List.drop_nil] using hi
  | cons a t ih =>
    rw [searchCI]
    cases h : matchesAt lit (a :: t) with
    | some c0 =>
      constructor
      · intro hc
        exact ⟨0, by simpa [h] using hc, by omega⟩
      · rintro ⟨i, hi, hj⟩
        cases i with
        | zero => simp only [List.drop_zero] at hi; rw [h] at hi; exact hi
        | succ k =>
          have := hj 0 (Nat.succ_pos k)
          simp only [List.drop_zero] at this
          rw [h] at this
          exact absurd this (by simp)
    | none =>
      rw [ih]
      constructor
      · rintro ⟨i, hi, hj⟩
        refine ⟨i + 1, by simpa using hi, ?_⟩
        intro j hjlt
        cases j with
        | zero => simpa using h
        | succ k => simpa using hj k (by omega)
      · rintro ⟨i, hi, hj⟩
        cases i with
        | zero => simp only [List.drop_zero] at hi; rw [h] at hi; cases hi
        | succ k =>
          refine ⟨k, by simpa using hi, ?_⟩
          intro j hjlt
          have := hj (j + 1) (by omega)
          simpa using this

theorem searchCI_eq_none_iff (lit s : Str) :
    searchCI lit s = none ↔ ∀ i, matchesAt lit (s.drop i) = none := by
  induction s with
  | nil =>
    rw [searchCI]
    constructor
    · intro h i
      simpa [List.drop_nil] using h
    · intro h
      simpa using h 0
  | cons a t ih =>
    rw [searchCI]
    cases h : matchesAt lit (a :: t) with
    | some c0 =>
      constructor
      · intro hc
        cases hc
      · intro hall
        have h0 := hall 0
        simp only [List.drop_zero] at h0
        rw [h] at h0
        cases h0
    | none =>
      rw [ih]
      constructor
      · intro hall i
        cases i with
        | zero => simpa using h
        | succ k => simpa using hall k
      · intro hall i
        simpa using hall (i + 1)

/-! ## Store lemmas -/

theorem findSession_cons (sid k : Str) (d : SessionData) (t : Store) :
    findSession sid ((k, d) :: t) =
      if k = sid then some d else findSession sid t := rfl

theorem findSession_eq_none_iff (sid : Str) (store : Store) :
    findSession sid store = none ↔ ∀ p ∈ store, p.1 ≠ sid := by
  induction store with
  | nil => simp [findSession]
  | cons p t ih =>
    obtain ⟨k, d⟩ := p
    rw [findSession_cons]
    by_cases hk : k = sid
    · subst hk
      rw [if_pos rfl]
      constructor
      · intro h; cases h
      · intro h
        exact absurd rfl (h (k, d) (List.mem_cons_self _ _))
    · rw [if_neg hk, ih]
      constructor
      · intro h p hp
        rcases List.mem_cons.1 hp with rfl | hmem
        · exact hk
        · exact h p hmem
      · intro h p hp
        exact h p (List.mem_cons_of_mem _ hp)

theorem findSession_mem {sid : Str} {store : Store} {d : SessionData}
    (h : findSession sid store = some d) : (sid, d) ∈ store := by
  induction store with
  | nil => cases h
  | cons p t ih =>
    obtain ⟨k, d0⟩ := p
    rw [findSession_cons] at h
    by_cases hk : k = sid
    · subst hk
      rw [if_pos rfl] at h
      cases h
      exact List.mem_cons_self _ _
    · rw [if_neg hk] at h
      exact List.mem_cons_of_mem _ (ih h)

theorem assoc_value_unique {sid : Str} {store : Store} {d d' : SessionData}
    (hnd : (store.map Prod.fst).Nodup)
    (h : (sid, d) ∈ store) (h' : (sid, d') ∈ store) : d = d' := by
  induction store with
  | nil => cases h
  | cons p t ih =>
    simp only [List.map_cons, List.nodup_cons] at hnd
    rcases List.mem_cons.1 h with rfl | hmem
    · rcases List.mem_cons.1 h' with heq | hmem'
      · exact congrArg Prod.snd heq.symm
      · exact absurd (List.mem_map_of_mem Prod.fst hmem') (by simpa using hnd.1)
    · rcases List.mem_cons.1 h' with rfl | hmem'
      · exact absurd (List.mem_map_of_mem Prod.fst hmem) (by simpa using hnd.1)
      · exact ih hnd.2 hmem hmem'

theorem insertSession_of_fresh {sid : Str} {store : Store} (d : SessionData)
    (h : findSession sid store = none) :
    insertSession sid d store = store ++ [(sid, d)] := by
  induction store with
  | nil => rfl
  | cons p t ih =>
    obtain ⟨k, d0⟩ := p
    rw [findSession] at h
    by_cases hk : k = sid
    · rw [if_pos hk] at h; cases h
    · rw [if_neg hk] at h
      simp [insertSession, hk, ih h]

theorem findSession_append_self (sid : Str) (store : Store) (d : SessionData)
    (h : findSession sid store = none) :
    findSession sid (store ++ [(sid, d)]) = some d := by
  induction store with
  | nil => simp [findSession]
  | cons p t ih =>
    obtain ⟨k, d0⟩ := p
    rw [findSession] at h
    by_cases hk : k = sid
    · rw [if_pos hk] at h; cases h
    · rw [if_neg hk] at h
      simp only [List.cons_append, findSession, if_neg hk]
      exact ih h

theorem length_filter_add_length_filter_not {α : Type} (l : List α) (p : α → Bool) :
    (l.filter p).length + (l.filter (fun a => !p a)).length = l.length := by
  induction l with
  | nil => rfl
  | cons a t ih =>
    by_cases hp : p a
    · simp [List.filter_cons, hp, ← ih]; omega
    · simp [List.filter_cons, hp, Bool.not_eq_true] at ih ⊢
      simp [ih.symm]; omega

theorem isExpired_iff (now : Nat) (d : SessionData) :
    isExpired now d = true ↔ d.timestamp + SESSION_EXPIRATION < now := by
  rw [isExpired, decide_eq_true_eq, Nat.lt_sub_iff_add_lt]
  omega

theorem touchEntry_pair (sid : Str) (t : Nat) (k : Str) (d : SessionData) :
    touchEntry sid t (k, d) =
      if k = sid then (k, { d with timestamp := t }) else (k, d) := rfl

/-- Keys are untouched by the timestamp refresh. -/
theorem touchMap_keys (sid : Str) (t : Nat) (store : Store) :
    (store.map (touchEntry sid t)).map Prod.fst = store.map Prod.fst := by
  induction store with
  | nil => rfl
  | cons p tl ih =>
    obtain ⟨k, d0⟩ := p
    rw [List.map_cons, List.map_cons, List.map_cons, touchEntry_pair, ih]
    by_cases hk : k = sid
    · rw [if_pos hk]
    · rw [if_neg hk]

theorem touchIfPresent_keys (sid : Str) (t : Nat) (store : Store) :
    (touchIfPresent sid t store).map Prod.fst = store.map Prod.fst := by
  rw [touchIfPresent]
  by_cases h : (findSession sid store).isSome
  · rw [if_pos h, touchMap_keys]
  · rw [if_neg h]

theorem touchIfPresent_of_absent (sid : Str) (t : Nat) (store : Store)
    (h : findSession sid store = none) : touchIfPresent sid t store = store := by
  rw [touchIfPresent, h]
  rfl

theorem findSession_touchMap_other (sid k : Str) (t : Nat) (store : Store)
    (hne : k ≠ sid) :
    findSession k (store.map (touchEntry sid t)) = findSession k store := by
  induction store with
  | nil => rfl
  | cons p tl ih =>
    obtain ⟨k0, d0⟩ := p
    rw [List.map_cons, touchEntry_pair]
    by_cases hk0 : k0 = sid
    · subst hk0
      rw [if_pos rfl, findSession_cons, findSession_cons,
        if_neg (fun hh => hne hh.symm), if_neg (fun hh => hne hh.symm), ih]
    · rw [if_neg hk0, findSession_cons, findSession_cons]
      by_cases hk : k0 = k
      · rw [if_pos hk, if_pos hk]
      · rw [if_neg hk, if_neg hk, ih]

theorem findSession_touch_other (sid k : Str) (t : Nat) (store : Store)
    (hne : k ≠ sid) :
    findSession k (touchIfPresent sid t store) = findSession k store := by
  rw [touchIfPresent]
  by_cases h : (findSession sid store).isSome
  · rw [if_pos h, findSession_touchMap_other _ _ _ _ hne]
  · rw [if_neg h]

theorem findSession_touchMap_self (sid : Str) (t : Nat) (store : Store)
    (d : SessionData) (h : findSession sid store = some d) :
    findSession sid (store.map (touchEntry sid t)) =
      some { d with timestamp := t } := by
  induction store with
  | nil => cases h
  | cons p tl ih =>
    obtain ⟨k0, d0⟩ := p
    rw [findSession_cons] at h
    rw [List.map_cons, touchEntry_pair]
    by_cases hk0 : k0 = sid
    · rw [if_pos hk0] at h
      cases h
      rw [if_pos hk0, findSession_cons, if_pos hk0]
    · rw [if_neg hk0] at h
      rw [if_neg hk0, findSession_cons, if_neg hk0, ih h]

theorem findSession_touch_self (sid : Str) (t : Nat) (store : Store)
    (d : SessionData) (h : findSession sid store = some d) :
    findSession sid (touchIfPresent sid t store) =
      some { d with timestamp := t } := by
  rw [touchIfPresent, h]
  exact findSession_touchMap_self sid t store d h

/-! ## Session-id lemmas -/

theorem isHexChar_ne_hyphen {c : Char} (h : isHexChar c = true) : c ≠ '-' := by
  intro hc
  subst hc
  exact absurd h (by decide)

theorem genSessionId_hex (l : Str) (hl : ∀ x ∈ l, isHexChar x = true) :
    genSessionId l = l := by
  rw [genSessionId, List.filter_eq_self]
  intro x hx
  simpa using isHexChar_ne_hyphen (hl x hx)

theorem genSessionId_split (l r : Str) (hl : ∀ x ∈ l, isHexChar x = true) :
    genSessionId (l ++ '-' :: r) = l ++ genSessionId r := by
  rw [genSessionId, List.filter_append, List.filter_cons]
  rw [genSessionId] at *
  have hpred : (decide (('-' : Char) ≠ '-')) = false := by decide
  rw [hpred]
  simp only [Bool.false_eq_true, if_false]
  congr 1
  exact genSessionId_hex l hl

theorem genSessionId_of_uuid {u : Str} (h : IsUuidString u) :
    (genSessionId u).length = 32 ∧ ∀ c ∈ genSessionId u, isHexChar c = true := by
  obtain ⟨a, b, c, d, e, rfl, ha, hb, hc, hd, he, hhex⟩ := h
  have hha : ∀ x ∈ a, isHexChar x = true := fun x hx => hhex x (by simp [hx])
  have hhb : ∀ x ∈ b, isHexChar x = true := fun x hx => hhex x (by simp [hx])
  have hhc : ∀ x ∈ c, isHexChar x = true := fun x hx => hhex x (by simp [hx])
  have hhd : ∀ x ∈ d, isHexChar x = true := fun x hx => hhex x (by simp [hx])
  have hhe : ∀ x ∈ e, isHexChar x = true := fun x hx => hhex x (by simp [hx])
  have hassoc : a ++ '-' :: b ++ '-' :: c ++ '-' :: d ++ '-' :: e =
      a ++ '-' :: (b ++ '-' :: (c ++ '-' :: (d ++ '-' :: e))) := by
    simp only [List.cons_append, List.append_assoc]
  rw [hassoc, genSessionId_split a _ hha, genSessionId_split b _ hhb,
    genSessionId_split c _ hhc, genSessionId_split d _ hhd,
    genSessionId_hex e hhe]
  refine ⟨by simp [ha, hb, hc, hd, he], ?_⟩
  intro x hx
  apply hhex
  simp only [List.mem_append] at hx ⊢
  tauto

/-! ## Gateway unfolding lemmas -/

theorem handle_mcp_request_streaming (cur fore : Tool) (u : Str) (now : Nat)
    (b : Body) (store : Store) (q : Str)
    (hs : b.stream.getD true = true) (hq : pyGetQuery b = some q) :
    handle_mcp_request cur fore u now b store =
      (.endpoint (endpointFrame (genSessionId u)),
       insertSession (genSessionId u) ⟨q, true, b, now⟩ store) := by
  rw [handle_mcp_request, hs]
  rw [if_neg (by decide)]
  rw [hq]

theorem handle_mcp_request_nonstreaming (cur fore : Tool) (u : Str) (now : Nat)
    (b : Body) (store : Store) (q : Str)
    (hs : b.stream.getD true = false) (hq : pyGetQuery b = some q) :
    handle_mcp_request cur fore u now b store =
      (.direct "assistant".toList (answerQuery cur fore q) "stop".toList,
       store) := by
  rw [handle_mcp_request, hs]
  rw [if_pos rfl]
  rw [hq]

theorem handle_mcp_request_malformed (cur fore : Tool) (u : Str) (now : Nat)
    (b : Body) (store : Store) (hq : pyGetQuery b = none) :
    handle_mcp_request cur fore u now b store = (.error500, store) := by
  rw [handle_mcp_request]
  by_cases hs : (b.stream.getD true) = false
  · rw [if_pos hs, hq]
  · rw [if_neg hs, hq]

theorem answerQuery_ok (cur fore : Tool) (q res : Str)
    (h : (if wantsForecast q then fore (extract_city q)
        else cur (extract_city q)) = .ok res) :
    answerQuery cur fore q = res := by
  rw [answerQuery, h]

theorem answerQuery_error (cur fore : Tool) (q e : Str)
    (h : (if wantsForecast q then fore (extract_city q)
        else cur (extract_city q)) = .error e) :
    answerQuery cur fore q =
      "Error: Could not get weather data for ".toList ++ extract_city q ++
        ". ".toList ++ e := by
  rw [answerQuery, h]

theorem handle_messages_success (cur fore : Tool) (s : Str) (b : Body)
    (now touchTime : Nat) (store : Store) (data : SessionData)
    (hs : s ≠ [])
    (hfound : findSession s (cleanup_expired_sessions now store).1 = some data) :
    handle_messages cur fore (some s) (some b) now touchTime store =
      (.streamed [Frame.delta "assistant".toList
          (answerQuery cur fore (effectiveQuery b data.query)), Frame.stop],
       touchIfPresent s touchTime (cleanup_expired_sessions now store).1) := by
  rw [handle_messages]
  rw [if_neg hs, hfound]
  rfl

/-! ## Witness fixtures -/

/-- A provider whose tools answer normally. -/
def toolOkW : Tool := fun _ => .ok "sunny".toList

/-- A provider whose tools raise. -/
def toolErrW : Tool := fun _ => .error "boom".toList

/-- A concrete UUID string as `str(uuid.uuid4())` would print one. -/
def uuidW : Str := "123e4567-e89b-42d3-a456-426614174000".toList

/-- A streaming body (no `stream` key) with one message. -/
def bodyStreamW : Body := ⟨none, some [⟨some "hi".toList⟩]⟩

/-- A non-streaming body with one message. -/
def bodyDirectW : Body :=
  ⟨some false, some [⟨some "What is the weather like in Tokyo?".toList⟩]⟩

/-! ## Claims -/

/-- Claim C1: for every InitialRequest whose stream flag is true or absent,
the gateway generates a fresh 32-character hexadecimal session id, stores a
session record holding the original query text under that id, and returns
the SSE endpoint-announcement frame; this response is the handshake, not the
weather answer. -/
theorem c1_streaming_handshake (cur fore : Tool) (u : Str) (now : Nat)
    (b : Body) (store : Store) (q : Str)
    (hu : IsUuidString u)
    (hfresh : findSession (genSessionId u) store = none)
    (hs : b.stream.getD true = true)
    (hq : pyGetQuery b = some q) :
    handle_mcp_request cur fore u now b store =
      (.endpoint ("event: endpoint\ndata: /v1/mcp/messages/?session_id=".toList
          ++ genSessionId u ++ "\n\n".toList),
       store ++ [(genSessionId u, ⟨q, true, b, now⟩)]) ∧
    findSession (genSessionId u)
        (handle_mcp_request cur fore u now b store).2 = some ⟨q, true, b, now⟩ ∧
    (genSessionId u).length = 32 ∧
    (∀ c ∈ genSessionId u, isHexChar c = true) := by
  have hmain := handle_mcp_request_streaming cur fore u now b store q hs hq
  have hins := insertSession_of_fresh (⟨q, true, b, now⟩ : SessionData) hfresh
  obtain ⟨hlen, hhex⟩ := genSessionId_of_uuid hu
  refine ⟨?_, ?_, hlen, hhex⟩
  · rw [hmain, hins]
    rfl
  · rw [hmain, hins]
    exact findSession_append_self _ _ _ hfresh

theorem c1_streaming_handshake_witness :
    handle_mcp_request toolOkW toolOkW uuidW 0 bodyStreamW [] =
      (.endpoint ("event: endpoint\ndata: /v1/mcp/messages/?session_id=".toList
          ++ genSessionId uuidW ++ "\n\n".toList),
       [] ++ [(genSessionId uuidW, ⟨"hi".toList, true, bodyStreamW, 0⟩)]) ∧
    findSession (genSessionId uuidW)
        (handle_mcp_request toolOkW toolOkW uuidW 0 bodyStreamW []).2 =
      some ⟨"hi".toList, true, bodyStreamW, 0⟩ ∧
    (genSessionId uuidW).length = 32 ∧
    (∀ c ∈ genSessionId uuidW, isHexChar c = true) :=
  c1_streaming_handshake toolOkW toolOkW uuidW 0 bodyStreamW [] "hi".toList
    ⟨"123e4567".toList, "e89b".toList, "42d3".toList, "a456".toList,
      "426614174000".toList, by decide, by decide, by decide, by decide,
      by decide, by decide, by decide⟩
    rfl rfl rfl

/-- Claim C7: the expiry sweep with ttl 300 removes exactly those records
whose timestamp is older than 300 seconds before now, leaves every other
record unchanged (a sublist of the store), returns the number removed, and
run immediately after a session is created it removes nothing. -/
theorem c7_sweep_expired (now : Nat) (store : Store) :
    (∀ p, p ∈ (cleanup_expired_sessions now store).1 ↔
        p ∈ store ∧ ¬(p.2.timestamp + SESSION_EXPIRATION < now)) ∧
    List.Sublist (cleanup_expired_sessions now store).1 store ∧
    (cleanup_expired_sessions now store).2 =
      store.length - (cleanup_expired_sessions now store).1.length ∧
    (∀ sid q st b, cleanup_expired_sessions now
        (insertSession sid ⟨q, st, b, now⟩ []) =
        ([(sid, ⟨q, st, b, now⟩)], 0)) := by
  refine ⟨?_, List.filter_sublist _, ?_, ?_⟩
  · intro p
    simp only [cleanup_expired_sessions, List.mem_filter, Bool.not_eq_true',
      isExpired, decide_eq_false_iff_not, SESSION_EXPIRATION]
    constructor
    · rintro ⟨h1, h2⟩
      exact ⟨h1, by omega⟩
    · rintro ⟨h1, h2⟩
      exact ⟨h1, by omega⟩
  · have hlen := length_filter_add_length_filter_not store
      (fun p => isExpired now p.2)
    simp only [cleanup_expired_sessions]
    omega
  · intro sid q st b
    have hexp : isExpired now (⟨q, st, b, now⟩ : SessionData) = false := by
      simp [isExpired, Nat.sub_self]
    simp [cleanup_expired_sessions, insertSession, List.filter_cons, hexp]

theorem c7_sweep_expired_witness :
    cleanup_expired_sessions 5
        (insertSession "abc".toList ⟨"q".toList, true, ⟨none, none⟩, 5⟩ []) =
      ([("abc".toList, ⟨"q".toList, true, ⟨none, none⟩, 5⟩)], 0) ∧
    ("abc".toList, (⟨"q".toList, true, ⟨none, none⟩, 5⟩ : SessionData)) ∈
      (cleanup_expired_sessions 5
        [("abc".toList, ⟨"q".toList, true, ⟨none, none⟩, 5⟩)]).1 := by
  have h := c7_sweep_expired 5
    [("abc".toList, (⟨"q".toList, true, ⟨none, none⟩, 5⟩ : SessionData))]
  exact ⟨(c7_sweep_expired 5 []).2.2.2 "abc".toList "q".toList true
      ⟨none, none⟩,
    (h.1 _).mpr ⟨List.mem_cons_self _ _, by decide⟩⟩

/-- Claim C3: StreamRequest fails with BadRequest carrying "session_id is
required" exactly when the session_id parameter is missing or empty, and
fails with NotFound carrying "Session not found or expired" exactly when a
nonempty session_id is absent from the store after the expiry sweep; in both
failure cases no SSE frames are produced. -/
theorem c3_stream_request_failures (cur fore : Tool) (sid : Option Str)
    (rawBody : Option Body) (now touchTime : Nat) (store : Store) :
    ((handle_messages cur fore sid rawBody now touchTime store).1 =
        .badRequest "session_id is required".toList ↔
      (sid = none ∨ sid = some [])) ∧
    ((handle_messages cur fore sid rawBody now touchTime store).1 =
        .notFound "Session not found or expired".toList ↔
      (∃ s, sid = some s ∧ s ≠ [] ∧
        findSession s (cleanup_expired_sessions now store).1 = none)) ∧
    (∀ frames,
      ((handle_messages cur fore sid rawBody now touchTime store).1 =
          .badRequest "session_id is required".toList ∨
        (handle_messages cur fore sid rawBody now touchTime store).1 =
          .notFound "Session not found or expired".toList) →
      (handle_messages cur fore sid rawBody now touchTime store).1 ≠
        .streamed frames) := by
  rcases sid with _ | s
  · refine ⟨by simp [handle_messages], by simp [handle_messages], ?_⟩
    intro frames h
    simp [handle_messages]
  · by_cases he : s = []
    · subst he
      refine ⟨by simp [handle_messages], by simp [handle_messages], ?_⟩
      intro frames h
      simp [handle_messages]
    · rcases hf : findSession s (cleanup_expired_sessions now store).1
        with _ | data
      · have hr : handle_messages cur fore (some s) rawBody now touchTime store =
            (.notFound "Session not found or expired".toList,
             (cleanup_expired_sessions now store).1) := by
          rw [handle_messages, if_neg he, hf]
        rw [hr]
        refine ⟨by simp [he], ?_, ?_⟩
        · constructor
          · intro _
            exact ⟨s, rfl, he, hf⟩
          · intro _
            rfl
        · intro frames h hstream
          cases hstream
      · have hnot : ¬∃ s', (some s = some s' ∧ s' ≠ [] ∧
            findSession s' (cleanup_expired_sessions now store).1 = none) := by
          rintro ⟨s', heq, -, hnone⟩
          cases heq
          rw [hf] at hnone
          cases hnone
        rcases rawBody with _ | b
        · have hr : handle_messages cur fore (some s) none now touchTime store =
              (.error500, (cleanup_expired_sessions now store).1) := by
            rw [handle_messages, if_neg he, hf]
          rw [hr]
          refine ⟨by simp [he], by simpa using hnot, ?_⟩
          intro frames h
          rcases h with h | h <;> cases h
        · have hr := handle_messages_success cur fore s b now touchTime store
            data he hf
          rw [hr]
          refine ⟨by simp [he], by simpa using hnot, ?_⟩
          intro frames h
          rcases h with h | h <;> cases h

theorem c3_stream_request_failures_witness :
    (handle_messages toolOkW toolOkW none none 0 0 []).1 =
      .badRequest "session_id is required".toList ∧
    (handle_messages toolOkW toolOkW none none 0 0 []).1 ≠
      .streamed [] := by
  have h := c3_stream_request_failures toolOkW toolOkW none none 0 0 []
  have hbad := h.1.mpr (Or.inl rfl)
  exact ⟨hbad, h.2.2 [] (Or.inl hbad)⟩

/-- Claim C4: an expired session is never successfully touched: a
StreamRequest arriving when the stored timestamp is older than 300
seconds before now runs the sweep before the lookup, yields NotFound, and
the expired record is removed from the store. -/
theorem c4_expired_session_not_touched (cur fore : Tool) (s : Str)
    (rawBody : Option Body) (now touchTime : Nat) (store : Store)
    (d : SessionData)
    (hnd : (store.map Prod.fst).Nodup)
    (hs : s ≠ [])
    (hmem : (s, d) ∈ store)
    (hexp : d.timestamp + SESSION_EXPIRATION < now) :
    handle_messages cur fore (some s) rawBody now touchTime store =
      (.notFound "Session not found or expired".toList,
       (cleanup_expired_sessions now store).1) ∧
    findSession s
      (handle_messages cur fore (some s) rawBody now touchTime store).2 =
      none := by
  have hnone : findSession s (cleanup_expired_sessions now store).1 = none := by
    rw [findSession_eq_none_iff]
    rintro ⟨k, v⟩ hp hps
    simp only at hps
    subst hps
    simp only [cleanup_expired_sessions] at hp
    obtain ⟨hpstore, hpn⟩ := List.mem_filter.1 hp
    have hvd : v = d := assoc_value_unique hnd hpstore hmem
    subst hvd
    rw [Bool.not_eq_eq_eq_not, Bool.not_true] at hpn
    rw [(isExpired_iff now v).2 hexp] at hpn
    cases hpn
  have hr : handle_messages cur fore (some s) rawBody now touchTime store =
      (.notFound "Session not found or expired".toList,
       (cleanup_expired_sessions now store).1) := by
    rw [handle_messages, if_neg hs, hnone]
  exact ⟨hr, by rw [hr]; exact hnone⟩

theorem c4_expired_session_not_touched_witness :
    handle_messages toolOkW toolOkW (some "abc".toList) none 301 301
        [("abc".toList, ⟨"hi".toList, true, ⟨none, none⟩, 0⟩)] =
      (.notFound "Session not found or expired".toList,
       (cleanup_expired_sessions 301
         [("abc".toList, ⟨"hi".toList, true, ⟨none, none⟩, 0⟩)]).1) ∧
    findSession "abc".toList
      (handle_messages toolOkW toolOkW (some "abc".toList) none 301 301
        [("abc".toList, ⟨"hi".toList, true, ⟨none, none⟩, 0⟩)]).2 = none :=
  c4_expired_session_not_touched toolOkW toolOkW "abc".toList none 301 301
    [("abc".toList, ⟨"hi".toList, true, ⟨none, none⟩, 0⟩)]
    ⟨"hi".toList, true, ⟨none, none⟩, 0⟩
    (by decide) (by decide) (by decide) (by decide)

/-- Claim C2: for every StreamRequest on a live session with a parseable
body, the streamed body consists of exactly two SSE data frames: first the
assistant delta carrying the answer for the effective query (the first
message content of the body if present, else the stored session query),
then the stop frame; on provider failure the delta content is an error
string and exactly two frames are still emitted. -/
theorem c2_stream_exactly_two_frames (cur fore : Tool) (s : Str) (b : Body)
    (now touchTime : Nat) (store : Store) (data : SessionData)
    (hs : s ≠ [])
    (hfound : findSession s (cleanup_expired_sessions now store).1 = some data) :
    (handle_messages cur fore (some s) (some b) now touchTime store).1 =
      .streamed [Frame.delta "assistant".toList
          (answerQuery cur fore (effectiveQuery b data.query)), Frame.stop] ∧
    (∀ m ms c, b.messages = some (m :: ms) → m.content = some c →
      effectiveQuery b data.query = c) ∧
    (b.messages = none ∨ b.messages = some [] →
      effectiveQuery b data.query = data.query) ∧
    (∀ res, (if wantsForecast (effectiveQuery b data.query)
          then fore (extract_city (effectiveQuery b data.query))
          else cur (extract_city (effectiveQuery b data.query))) = .ok res →
      answerQuery cur fore (effectiveQuery b data.query) = res) ∧
    (∀ e, (if wantsForecast (effectiveQuery b data.query)
          then fore (extract_city (effectiveQuery b data.query))
          else cur (extract_city (effectiveQuery b data.query))) = .error e →
      answerQuery cur fore (effectiveQuery b data.query) =
        "Error: Could not get weather data for ".toList ++
          extract_city (effectiveQuery b data.query) ++ ". ".toList ++ e) := by
  refine ⟨?_, ?_, ?_, ?_, ?_⟩
  · rw [handle_messages_success cur fore s b now touchTime store data hs hfound]
  · intro m ms c hm hc
    rw [effectiveQuery, hm]
    show m.content.getD data.query = c
    rw [hc]
    rfl
  · intro hm
    rcases hm with hm | hm <;> rw [effectiveQuery, hm]
  · intro res h
    exact answerQuery_ok cur fore _ res h
  · intro e h
    exact answerQuery_error cur fore _ e h

theorem c2_stream_exactly_two_frames_witness :
    (handle_messages toolErrW toolErrW (some "abc".toList) (some ⟨none, none⟩)
        0 7 [("abc".toList, ⟨"hello".toList, true, ⟨none, none⟩, 0⟩)]).1 =
      .streamed [Frame.delta "assistant".toList
        (answerQuery toolErrW toolErrW "hello".toList), Frame.stop] ∧
    answerQuery toolErrW toolErrW "hello".toList =
      "Error: Could not get weather data for ".toList ++ "London".toList ++
        ". ".toList ++ "boom".toList := by
  have h := c2_stream_exactly_two_frames toolErrW toolErrW "abc".toList
    ⟨none, none⟩ 0 7 [("abc".toList, ⟨"hello".toList, true, ⟨none, none⟩, 0⟩)]
    ⟨"hello".toList, true, ⟨none, none⟩, 0⟩ (by decide) (by decide)
  exact ⟨h.1, h.2.2.2.2 "boom".toList rfl⟩

/-- Claim C5: every non-streaming InitialRequest returns the success shape
with role assistant and finish_reason stop both when the WeatherProvider
succeeds and when it fails; a provider failure becomes an error string in
the content field (and the tool layer itself converts every failure outcome
into a string starting with Error:), never a transport-level error. -/
theorem c5_nonstreaming_success_shape (cur fore : Tool) (u : Str) (now : Nat)
    (b : Body) (store : Store) (q : Str)
    (hs : b.stream.getD true = false)
    (hq : pyGetQuery b = some q) :
    handle_mcp_request cur fore u now b store =
      (.direct "assistant".toList (answerQuery cur fore q) "stop".toList,
       store) ∧
    (∀ e, (if wantsForecast q then fore (extract_city q)
          else cur (extract_city q)) = .error e →
      answerQuery cur fore q =
        "Error: Could not get weather data for ".toList ++ extract_city q ++
          ". ".toList ++ e) ∧
    (∀ city o, (∀ d, o ≠ FetchOutcome.ok d) →
      "Error:".toList <+: get_current_weather_impl city o) := by
  refine ⟨handle_mcp_request_nonstreaming cur fore u now b store q hs hq,
    ?_, ?_⟩
  · intro e h
    exact answerQuery_error cur fore q e h
  · intro city o hno
    rcases o with d | _ | code | _
    · exact absurd rfl (hno d)
    · refine ⟨" Timeout while getting weather data for ".toList ++ city ++
        ". Please try again later.".toList, ?_⟩
      simp only [← List.append_assoc]
      rfl
    · by_cases hc : code = 404
      · subst hc
        refine ⟨" Could not find weather data for ".toList ++ city ++
          ". Please check the city name and try again.".toList, ?_⟩
        simp only [← List.append_assoc]
        rfl
      · refine ⟨" Could not retrieve weather data for ".toList ++ city ++
          ". The weather service might be unavailable.".toList, ?_⟩
        rw [get_current_weather_impl, if_neg hc]
        simp only [← List.append_assoc]
        rfl
    · refine ⟨" An unexpected error occurred while getting weather data for ".toList
        ++ city ++ ".".toList, ?_⟩
      simp only [← List.append_assoc]
      rfl

theorem c5_nonstreaming_success_shape_witness :
    handle_mcp_request toolOkW toolOkW uuidW 5 bodyDirectW [] =
      (.direct "assistant".toList (answerQuery toolOkW toolOkW
        "What is the weather like in Tokyo?".toList) "stop".toList, []) ∧
    "Error:".toList <+:
      get_current_weather_impl "Nowhereville".toList .timeout := by
  have h := c5_nonstreaming_success_shape toolOkW toolOkW uuidW 5 bodyDirectW
    [] "What is the weather like in Tokyo?".toList rfl rfl
  exact ⟨h.1, h.2.2 "Nowhereville".toList .timeout
    (fun d hd => FetchOutcome.noConfusion hd)⟩

/-- Claim C6: query interpretation returns intent FORECAST iff the text
case-insensitively contains "forecast", "tomorrow" or "next" (else CURRENT);
the city is the whitespace-trimmed capture of the leftmost match of the
first succeeding pattern (tried in order), where the capture runs up to the
next stop character, defaulting to "London" when no pattern matches; and the
spec examples evaluate as stated. -/
theorem c6_query_interpretation :
    (∀ q : Str, wantsForecast q = true ↔
      ("forecast".toList <:+: lowerStr q ∨ "tomorrow".toList <:+: lowerStr q ∨
        "next".toList <:+: lowerStr q)) ∧
    (∀ lit s c : Str, searchCI lit s = some c ↔
      ∃ i, matchesAt lit (s.drop i) = some c ∧
        ∀ j < i, matchesAt lit (s.drop j) = none) ∧
    (∀ q c : Str, cityCapture q = some c → extract_city q = pyStrip c) ∧
    (∀ q : Str, cityCapture q = none → extract_city q = "London".toList) ∧
    interpret_query "What is the weather forecast for Paris?".toList =
      (.FORECAST, "Paris".toList) ∧
    interpret_query "What is the weather like in Tokyo?".toList =
      (.CURRENT, "Tokyo".toList) ∧
    interpret_query "hello".toList = (.CURRENT, "London".toList) := by
  refine ⟨?_, searchCI_eq_some_iff, ?_, ?_, by decide, by decide, by decide⟩
  · intro q
    rw [wantsForecast]
    simp only [Bool.or_eq_true, containsStr_iff, or_assoc]
  · intro q c h
    rw [extract_city, h]
  · intro q h
    rw [extract_city, h]

theorem c6_query_interpretation_witness :
    (∃ i, matchesAt "forecast for ".toList
        (("What is the weather forecast for Paris?".toList).drop i) =
          some "Paris".toList ∧
      ∀ j < i, matchesAt "forecast for ".toList
        (("What is the weather forecast for Paris?".toList).drop j) = none) ∧
    ("forecast".toList <:+:
        lowerStr "What is the weather forecast for Paris?".toList ∨
      "tomorrow".toList <:+:
        lowerStr "What is the weather forecast for Paris?".toList ∨
      "next".toList <:+:
        lowerStr "What is the weather forecast for Paris?".toList) ∧
    extract_city "hello".toList = "London".toList ∧
    extract_city "What is the weather like in Tokyo?".toList =
      pyStrip "Tokyo".toList := by
  have h := c6_query_interpretation
  exact ⟨(h.2.1 _ _ _).mp (by decide), (h.1 _).mp (by decide),
    h.2.2.2.1 _ (by decide), h.2.2.1 _ _ (by decide)⟩

/-- Whatever path a StreamRequest with a nonempty session id takes, the key
set of the store it leaves behind is that of the store right after the
initial sweep. -/
theorem handle_messages_keys (cur fore : Tool) (s : Str)
    (rawBody : Option Body) (now touchTime : Nat) (store : Store)
    (hne : s ≠ []) :
    ((handle_messages cur fore (some s) rawBody now touchTime store).2.map
        Prod.fst) =
      ((cleanup_expired_sessions now store).1.map Prod.fst) := by
  rw [handle_messages, if_neg hne]
  rcases hf : findSession s (cleanup_expired_sessions now store).1 with _ | data
  · rfl
  · rcases rawBody with _ | b
    · rfl
    · exact touchIfPresent_keys s touchTime _

/-- Claim C8: a successful StreamRequest mutates only the session record
timestamp field (set to the stream-completion time); the stored query,
stream flag and body are preserved, every other record is unchanged, and
the record is not deleted by successful use. -/
theorem c8_touch_refreshes_only_timestamp (cur fore : Tool) (s : Str)
    (b : Body) (now touchTime : Nat) (store : Store) (data : SessionData)
    (hs : s ≠ [])
    (hfound : findSession s (cleanup_expired_sessions now store).1 = some data) :
    findSession s
        (handle_messages cur fore (some s) (some b) now touchTime store).2 =
      some ⟨data.query, data.stream, data.body, touchTime⟩ ∧
    (∀ k, k ≠ s →
      findSession k
          (handle_messages cur fore (some s) (some b) now touchTime store).2 =
        findSession k (cleanup_expired_sessions now store).1) ∧
    ((handle_messages cur fore (some s) (some b) now touchTime store).2.map
        Prod.fst) =
      ((cleanup_expired_sessions now store).1.map Prod.fst) := by
  have hr := handle_messages_success cur fore s b now touchTime store data hs
    hfound
  refine ⟨?_, ?_, ?_⟩
  · rw [hr]
    exact findSession_touch_self s touchTime _ data hfound
  · intro k hk
    rw [hr]
    exact findSession_touch_other s k touchTime _ hk
  · rw [hr]
    exact touchIfPresent_keys s touchTime _

theorem c8_touch_refreshes_only_timestamp_witness :
    findSession "abc".toList
        (handle_messages toolOkW toolOkW (some "abc".toList)
          (some ⟨none, none⟩) 0 7
          [("abc".toList, ⟨"hello".toList, true, ⟨none, none⟩, 0⟩)]).2 =
      some ⟨"hello".toList, true, ⟨none, none⟩, 7⟩ ∧
    ((handle_messages toolOkW toolOkW (some "abc".toList)
        (some ⟨none, none⟩) 0 7
        [("abc".toList, ⟨"hello".toList, true, ⟨none, none⟩, 0⟩)]).2.map
      Prod.fst) =
      ((cleanup_expired_sessions 0
        [("abc".toList, ⟨"hello".toList, true, ⟨none, none⟩, 0⟩)]).1.map
      Prod.fst) := by
  have h := c8_touch_refreshes_only_timestamp toolOkW toolOkW "abc".toList
    ⟨none, none⟩ 0 7
    [("abc".toList, ⟨"hello".toList, true, ⟨none, none⟩, 0⟩)]
    ⟨"hello".toList, true, ⟨none, none⟩, 0⟩ (by decide) (by decide)
  exact ⟨h.1, h.2.2⟩

/-- Claim C9: a body omitting the messages key entirely is accepted and the
query defaults to the empty string, so a non-streaming request answers for
the default city London with intent CURRENT and a streaming request stores
the empty query; a body whose messages key is bound to the empty list makes
InitialRequest fail through the 500 malformed-request path instead. -/
theorem c9_messages_edge_cases (cur fore : Tool) (u : Str) (now : Nat)
    (store : Store) :
    (∀ b : Body, b.messages = none → b.stream = some false →
      handle_mcp_request cur fore u now b store =
        (.direct "assistant".toList (answerQuery cur fore []) "stop".toList,
         store)) ∧
    extract_city [] = "London".toList ∧
    wantsForecast [] = false ∧
    (∀ b : Body, b.messages = none → b.stream.getD true = true →
      handle_mcp_request cur fore u now b store =
        (.endpoint (endpointFrame (genSessionId u)),
         insertSession (genSessionId u) ⟨[], true, b, now⟩ store)) ∧
    (∀ b : Body, b.messages = some [] →
      handle_mcp_request cur fore u now b store = (.error500, store)) := by
  refine ⟨?_, by decide, by decide, ?_, ?_⟩
  · intro b hm hstr
    have hq : pyGetQuery b = some [] := by rw [pyGetQuery, hm]
    have hsf : b.stream.getD true = false := by rw [hstr]; rfl
    exact handle_mcp_request_nonstreaming cur fore u now b store [] hsf hq
  · intro b hm hstr
    have hq : pyGetQuery b = some [] := by rw [pyGetQuery, hm]
    exact handle_mcp_request_streaming cur fore u now b store [] hstr hq
  · intro b hm
    have hq : pyGetQuery b = none := by rw [pyGetQuery, hm]
    exact handle_mcp_request_malformed cur fore u now b store hq

theorem c9_messages_edge_cases_witness :
    handle_mcp_request toolOkW toolOkW uuidW 3 ⟨some false, none⟩ [] =
      (.direct "assistant".toList (answerQuery toolOkW toolOkW [])
        "stop".toList, []) ∧
    handle_mcp_request toolOkW toolOkW uuidW 3 ⟨none, some []⟩ [] =
      (.error500, []) := by
  have h := c9_messages_edge_cases toolOkW toolOkW uuidW 3 []
  exact ⟨h.1 _ rfl rfl, h.2.2.2.2 _ rfl⟩

/-- Claim C10: the post-stream timestamp refresh is guarded by store
membership and is a no-op when the session id is absent; streaming never
changes the key set of the store it runs on, and for a nonempty session id
the key set left by handle_messages is a subset of (in fact equal to) the
key set right after the initial sweep — StreamRequest never adds a key. -/
theorem c10_stream_never_adds_key (cur fore : Tool) (sid : Option Str)
    (rawBody : Option Body) (now touchTime : Nat) (store : Store) :
    (∀ (s : Str) (t : Nat) (st : Store), findSession s st = none →
      touchIfPresent s t st = st) ∧
    (∀ (s q : Str) (t : Nat) (st : Store),
      ((stream_weather_response cur fore s q t st).2.map Prod.fst) =
        st.map Prod.fst) ∧
    (∀ s : Str, sid = some s → s ≠ [] →
      ((handle_messages cur fore sid rawBody now touchTime store).2.map
          Prod.fst) ⊆
        ((cleanup_expired_sessions now store).1.map Prod.fst)) := by
  refine ⟨?_, ?_, ?_⟩
  · intro s t st h
    exact touchIfPresent_of_absent s t st h
  · intro s q t st
    exact touchIfPresent_keys s t st
  · rintro s rfl hne
    intro x hx
    rwa [handle_messages_keys cur fore s rawBody now touchTime store hne]
      at hx

theorem c10_stream_never_adds_key_witness :
    touchIfPresent "zzz".toList 9
        [("abc".toList, ⟨"hello".toList, true, ⟨none, none⟩, 0⟩)] =
      [("abc".toList, ⟨"hello".toList, true, ⟨none, none⟩, 0⟩)] ∧
    ((handle_messages toolOkW toolOkW (some "abc".toList) none 0 9
        [("abc".toList, ⟨"hello".toList, true, ⟨none, none⟩, 0⟩)]).2.map
      Prod.fst) ⊆
      ((cleanup_expired_sessions 0
        [("abc".toList, ⟨"hello".toList, true, ⟨none, none⟩, 0⟩)]).1.map
      Prod.fst) := by
  have h := c10_stream_never_adds_key toolOkW toolOkW (some "abc".toList)
    none 0 9 [("abc".toList, ⟨"hello".toList, true, ⟨none, none⟩, 0⟩)]
  exact ⟨h.1 _ 9 _ (by decide), h.2.2 _ rfl (by decide)⟩

end MCPWeather
